import Mathlib

/-!
Verification of the media indexing and image-transformation pipeline of the
`image_server` service (src/image_server/src/main.rs).

The filesystem is modelled as a tree of nodes. A node records exactly the
observations the Rust code makes on a directory entry:
  * `file ext canon` — a regular file (`is_file()` true); `ext` is the result
    of `extension()?.to_str()?` (with `none` covering both a missing extension
    and a non-UTF-8 one) and `canon` is the result of
    `fs::canonicalize(..).ok().and_then(|p| p.to_str() ...)` (with `none`
    covering a failed canonicalization or a non-UTF-8 path);
  * `special` — an entry that is neither a regular file nor a directory;
  * `entryErr e` — a `DirEntry` whose `Result` is `Err(e)` (the `?` inside the
    `for` loop propagates it, aborting that directory level);
  * `dirErr e` — a directory (`is_dir()` true) whose `read_dir` fails with `e`;
  * `dir entries` — a directory whose listing succeeds.
-/

inductive FSNode where
  | file (ext : Option String) (canon : Option String)
  | special
  | entryErr (e : String)
  | dirErr (e : String)
  | dir (entries : List FSNode)

/-- `Path::is_dir()` as observed by the walk: true exactly for directories,
whether or not their listing can be read. -/
def FSNode.isDir : FSNode → Bool
  | .dir _ => true
  | .dirErr _ => true
  | _ => false

/-- `const IMAGE_EXTENSION: [&str; 3] = ["png", "jpg", "jpeg"];` -/
def IMAGE_EXTENSION : List String := ["png", "jpg", "jpeg"]

/-- `str::to_lowercase()` as applied to extension strings, written over the
character data so that it evaluates (Rust Unicode lowercasing and this agree
on ASCII, which is all that comparing against `png`/`jpg`/`jpeg` can use). -/
def lowercase (s : String) : String :=
  String.mk (s.data.map Char.toLower)

/-- `get_canonical_path_if_image` (main.rs:96-113): `None` unless the entry is
a regular file; then `extension()?.to_str()?.to_lowercase()` must be contained
in `IMAGE_EXTENSION`, in which case the canonicalized path (itself an
`Option`) is returned. -/
def get_canonical_path_if_image : FSNode → Option String
  | .file ext canon =>
    match ext with
    | none => none
    | some e =>
      if IMAGE_EXTENSION.contains (lowercase e) then canon else none
  | _ => none

mutual
/-- `find_images_recursively` (main.rs:115-136). The Rust function mutates a
`&mut Vec<String>` accumulator and returns `io::Result<()>`; here it maps an
accumulator to the updated accumulator paired with the outcome. A non-directory
argument returns `Ok(())` untouched; a directory whose `read_dir` fails
returns that error; otherwise the entry list is walked. -/
def find_images_recursively : FSNode → List String → List String × Except String Unit
  | .dir entries, acc => walkEntries entries acc
  | .dirErr e, acc => (acc, .error e)
  | _, acc => (acc, .ok ())

/-- The `for entry_result in fs::read_dir(..)?` loop body of
`find_images_recursively`: an `Err` entry aborts this level via `?`; a
directory entry is recursed into with its error logged and discarded (the
accumulator keeps whatever the failed subtree pushed before failing); any
other entry is pushed when the path filter accepts it. -/
def walkEntries : List FSNode → List String → List String × Except String Unit
  | [], acc => (acc, .ok ())
  | .entryErr e :: _, acc => (acc, .error e)
  | .dir entries :: rest, acc =>
    walkEntries rest (find_images_recursively (.dir entries) acc).1
  | .dirErr e :: rest, acc =>
    walkEntries rest (find_images_recursively (.dirErr e) acc).1
  | node :: rest, acc =>
    match get_canonical_path_if_image node with
    | some p => walkEntries rest (acc ++ [p])
    | none => walkEntries rest acc
end

/-- `find_absolute_image_path` (main.rs:138-142): runs the walk on an empty
accumulator; a root-level error discards the incomplete vector and propagates. -/
def find_absolute_image_path (root : FSNode) : Except String (List String) :=
  match find_images_recursively root [] with
  | (paths, .ok _) => .ok paths
  | (_, .error e) => .error e

/-- `ImageConfig` (main.rs): the target thumbnail resolution (`u32`). -/
structure ImageConfig where
  resolution : Nat
deriving Repr, DecidableEq

/-- `MediaConfig` (main.rs): validated configuration. `network` is kept as a
plain string; it plays no role in the core. -/
structure MediaConfig where
  media : String
  network : String
  image : ImageConfig
deriving Repr, DecidableEq

/-- `MediaState` (main.rs:145-148). -/
structure MediaState where
  media_config : MediaConfig
  paths : List String
deriving Repr, DecidableEq

/-- The `Err` string of `MediaState::new` when the root is not a directory. -/
def notADirectoryMsg (media : String) : String :=
  "Error: Path is not a directory: " ++ media

/-- The `Err` string of `MediaState::new` when the walk yields no paths. -/
def emptyIndexMsg (media : String) : String :=
  "Directory does not contain images: " ++ media

/-- The `Err` string of `MediaState::new` when `find_absolute_image_path`
itself fails (root enumeration failure). -/
def walkFailedMsg (media : String) : String :=
  "No supoorted image found in directory: " ++ media

/-- `MediaState::new` (main.rs:151-168), with the root directory entry passed
in as the filesystem node the configured path denotes. -/
def MediaState.new (media_config : MediaConfig) (root : FSNode) :
    Except String MediaState :=
  if !root.isDir then
    .error ("Error: Path is not a directory: " ++ media_config.media)
  else
    match find_absolute_image_path root with
    | .ok paths =>
      if !paths.isEmpty then
        .ok { media_config := media_config, paths := paths }
      else
        .error ("Directory does not contain images: " ++ media_config.media)
    | .error _e =>
      .error ("No supoorted image found in directory: " ++ media_config.media)

/-- `MediaState::image_count` (main.rs:170-172). -/
def MediaState.image_count (s : MediaState) : Nat :=
  s.paths.length

/-- `MediaState::get_random_image` (main.rs:174-178). The random generator is
modelled by a seed: `gen_range(0..n)` yields `seed % n` when `n > 0` and
panics (here: `none`) when the range is empty; the subsequent indexing
`&self.paths[i]` is `List.get?` (out of bounds would be the other panic). -/
def MediaState.get_random_image (s : MediaState) (seed : Nat) : Option String :=
  let image_count := s.image_count
  if image_count = 0 then none
  else s.paths.get? (seed % image_count)

/-- The pipeline error `enum ImageError` (main.rs:67-71). The Rust variants
`IO`, `Load`, `Encode` carry the underlying library error; here the cause is
its display string. (`IO` is rendered `ioErr` in this development.) -/
inductive ImageError where
  | ioErr (e : String)
  | load (e : String)
  | encode (e : String)
deriving Repr, DecidableEq

/-- The underlying cause carried by a pipeline error. -/
def ImageError.cause : ImageError → String
  | .ioErr e => e
  | .load e => e
  | .encode e => e

/-- The kind-identifying message head used by `ImageError::into_response`. -/
def kindTag : ImageError → String
  | .ioErr _ => "Failed during IO image: "
  | .load _ => "Failed to load image: "
  | .encode _ => "Failed to encode Image: "

/-- The `error_msg` built by `ImageError::into_response` (main.rs:73-94):
`format!("Failed during IO image: {}", e)` and its two siblings. -/
def ImageError.message : ImageError → String
  | .ioErr e => "Failed during IO image: " ++ e
  | .load e => "Failed to load image: " ++ e
  | .encode e => "Failed to encode Image: " ++ e

/-- `error!("{}", error_msg)`: the string logged server-side by
`ImageError::into_response` is the same `error_msg`. -/
def ImageError.logged (e : ImageError) : String :=
  e.message

/-- An HTTP response body: raw bytes (the success path) or text (the error
path produced by the axum `(StatusCode, String)` responder). -/
inductive HttpBody where
  | bytes (bs : List Nat)
  | text (s : String)
deriving Repr, DecidableEq

/-- The observable parts of an HTTP response built by the handler. -/
structure HttpResponse where
  status : Nat
  contentType : Option String
  body : HttpBody
deriving Repr, DecidableEq

/-- `ImageError::into_response` (main.rs:73-94): every variant maps to status
500 (`INTERNAL_SERVER_ERROR`) with the formatted message as a plain-text body
(the axum `(StatusCode, String)` responder sets `text/plain; charset=utf-8`). -/
def ImageError.into_response (e : ImageError) : HttpResponse :=
  { status := 500
    contentType := some ("text/plain; charset=utf-8")
    body := .text e.message }

/-- Modelled from the spec: `DynamicImage::thumbnail` from the `image` crate
(called at main.rs:190, not among the sources of this repository) per spec §4.4
step 3 — fit within a `target_resolution × target_resolution` bounding box,
preserve aspect ratio, scale down only (never upscale): an image already
within the box keeps its dimensions; otherwise the larger dimension shrinks
to the bound and the other scales proportionally (rounded, at least 1). -/
def thumbnail_dims (w h target_resolution : Nat) : Nat × Nat :=
  if w ≤ target_resolution ∧ h ≤ target_resolution then (w, h)
  else if h ≤ w then
    (target_resolution, max ((h * target_resolution + w / 2) / w) 1)
  else
    (max ((w * target_resolution + h / 2) / h) 1, target_resolution)

/-- What the Rust code observes of one file at render time: the outcomes of
`ImageReader::open` (main.rs:185), `with_guessed_format` (186, an `io::Result`),
`decode` (187, yielding the pixel buffer, of which only the dimensions matter
here), and `write_to(.., ImageFormat::Jpeg)` on the thumbnail (194, yielding
the JPEG bytes, as a function of the thumbnail dimensions). -/
structure ImageFile where
  openResult : Except String Unit
  guessResult : Except String Unit
  decodeResult : Except String (Nat × Nat)
  encodeResult : Nat × Nat → Except String (List Nat)

/-- The decode→resize→encode pipeline of `get_random_art_handler`
(main.rs:184-195): `open` and `with_guessed_format` failures map to
`ImageError::IO`, `decode` failure to `ImageError::Load`, `write_to` failure
to `ImageError::Encode`; on success the JPEG bytes are returned. -/
def render (f : ImageFile) (resolution : Nat) : Except ImageError (List Nat) :=
  match f.openResult with
  | .error e => .error (.ioErr e)
  | .ok _ =>
    match f.guessResult with
    | .error e => .error (.ioErr e)
    | .ok _ =>
      match f.decodeResult with
      | .error e => .error (.load e)
      | .ok wh =>
        match f.encodeResult (thumbnail_dims wh.1 wh.2 resolution) with
        | .error e => .error (.encode e)
        | .ok jpegBytes => .ok jpegBytes

/-- `get_random_art_handler` (main.rs:181-204): pick a random path from the
shared state, run the pipeline on the file that path currently denotes
(`files`), and map the outcome to a response — 200/`image/jpeg`/bytes on
success, `ImageError::into_response` on failure. `none` models the panic of
`gen_range` on an empty index, which the non-empty invariant excludes. -/
def get_random_art_handler (state : MediaState) (seed : Nat)
    (files : String → ImageFile) : Option HttpResponse :=
  match state.get_random_image seed with
  | none => none
  | some img_path =>
    some
      (match render (files img_path) state.media_config.image.resolution with
       | .ok jpegBytes =>
         { status := 200
           contentType := some ("image/jpeg")
           body := .bytes jpegBytes }
       | .error e => e.into_response)

/-! Concrete fixtures used by witnesses and counterexamples. -/

/-- A sample validated configuration. -/
def cfgW : MediaConfig :=
  { media := "/media", network := "0.0.0.0:8080", image := { resolution := 720 } }

/-- A root directory holding one eligible image. -/
def rootW : FSNode :=
  FSNode.dir [FSNode.file (some ("jpg")) (some ("/media/a.jpg"))]

/-- The index built from `rootW`. -/
def sW1 : MediaState :=
  { media_config := cfgW, paths := ["/media/a.jpg"] }

/-- An index with two entries. -/
def sW2 : MediaState :=
  { media_config := cfgW, paths := ["/media/a.jpg", "/media/b.png"] }

/-- A configuration for the duplicate-entry tree. -/
def cfg10 : MediaConfig :=
  { media := "/nas", network := "0.0.0.0:9000", image := { resolution := 720 } }

/-- A tree in which two distinct directory entries (one of them inside a
symlinked subdirectory) canonicalize to the same absolute path. -/
def dupTree : FSNode :=
  FSNode.dir
    [FSNode.file (some ("jpg")) (some ("/nas/x.jpg")),
     FSNode.dir [FSNode.file (some ("jpg")) (some ("/nas/x.jpg"))],
     FSNode.file (some ("png")) (some ("/nas/y.png"))]

/-- A file whose open fails (missing file). -/
def fileMissing : ImageFile :=
  { openResult := Except.error ("No such file or directory")
    guessResult := Except.ok ()
    decodeResult := Except.error ("unused")
    encodeResult := fun _ => Except.ok [] }

/-- A file for which every pipeline stage succeeds. -/
def goodFile : ImageFile :=
  { openResult := Except.ok ()
    guessResult := Except.ok ()
    decodeResult := Except.ok (1024, 768)
    encodeResult := fun _ => Except.ok [255, 216, 255, 217] }

/-! Helper lemmas shared by the claim theorems. -/

theorem mediaState_new_eq (cfg : MediaConfig) (root : FSNode) :
    MediaState.new cfg root =
      (if root.isDir = false then Except.error (notADirectoryMsg cfg.media)
       else
         match find_absolute_image_path root with
         | Except.error _ => Except.error (walkFailedMsg cfg.media)
         | Except.ok [] => Except.error (emptyIndexMsg cfg.media)
         | Except.ok (p :: ps) =>
           Except.ok { media_config := cfg, paths := p :: ps }) := by
  unfold MediaState.new notADirectoryMsg emptyIndexMsg walkFailedMsg
  cases hd : root.isDir
  · simp
  · simp only [Bool.not_true, Bool.false_eq_true, if_false, reduceIte]
    cases hfa : find_absolute_image_path root with
    | error e => rfl
    | ok paths => cases paths <;> simp [List.isEmpty]

theorem notADir_ne_empty (m : String) : notADirectoryMsg m ≠ emptyIndexMsg m := by
  intro hcontra
  have hlen := congrArg String.length hcontra
  unfold notADirectoryMsg emptyIndexMsg at hlen
  rw [String.length_append, String.length_append] at hlen
  have h1 : ("Error: Path is not a directory: ").length = 32 := rfl
  have h2 : ("Directory does not contain images: ").length = 35 := rfl
  omega

theorem notADir_ne_walkFailed (m : String) : notADirectoryMsg m ≠ walkFailedMsg m := by
  intro hcontra
  have hlen := congrArg String.length hcontra
  unfold notADirectoryMsg walkFailedMsg at hlen
  rw [String.length_append, String.length_append] at hlen
  have h1 : ("Error: Path is not a directory: ").length = 32 := rfl
  have h2 : ("No supoorted image found in directory: ").length = 39 := rfl
  omega

theorem empty_ne_walkFailed (m : String) : emptyIndexMsg m ≠ walkFailedMsg m := by
  intro hcontra
  have hlen := congrArg String.length hcontra
  unfold emptyIndexMsg walkFailedMsg at hlen
  rw [String.length_append, String.length_append] at hlen
  have h1 : ("Directory does not contain images: ").length = 35 := rfl
  have h2 : ("No supoorted image found in directory: ").length = 39 := rfl
  omega

/-! Claim theorems. -/

/-- C2: `MediaState::new` fails with exactly one of three mutually
distinguishable errors — the not-a-directory message when the root is not a
directory, the empty-index message when the walk yields zero eligible files,
and the walk-failed message when the root itself cannot be enumerated — and
for every other input it returns a constructed index. The three messages are
pairwise distinct for every configured root path. -/
theorem C2_construction_errors (cfg : MediaConfig) (root : FSNode) :
    (MediaState.new cfg root =
      (if root.isDir = false then Except.error (notADirectoryMsg cfg.media)
       else
         match find_absolute_image_path root with
         | Except.error _ => Except.error (walkFailedMsg cfg.media)
         | Except.ok [] => Except.error (emptyIndexMsg cfg.media)
         | Except.ok (p :: ps) =>
           Except.ok { media_config := cfg, paths := p :: ps })) ∧
    notADirectoryMsg cfg.media ≠ emptyIndexMsg cfg.media ∧
    notADirectoryMsg cfg.media ≠ walkFailedMsg cfg.media ∧
    emptyIndexMsg cfg.media ≠ walkFailedMsg cfg.media :=
  ⟨mediaState_new_eq cfg root, notADir_ne_empty cfg.media,
   notADir_ne_walkFailed cfg.media, empty_ne_walkFailed cfg.media⟩

/-- C3: the path filter returns the canonical path string if and only if the
entry is a regular file whose lower-cased extension is `png`, `jpg` or `jpeg`
and whose canonicalization succeeded; in every other case (no extension,
directory or special entry, failed canonicalization) it returns `none` — it
has no error outcome at all. -/
theorem C3_path_filter (node : FSNode) (p : String) :
    get_canonical_path_if_image node = some p ↔
      ∃ e, node = FSNode.file (some e) (some p) ∧
        IMAGE_EXTENSION.contains (lowercase e) = true := by
  cases node with
  | file ext canon =>
    cases ext with
    | none => simp [get_canonical_path_if_image]
    | some e =>
      by_cases hc : lowercase e ∈ IMAGE_EXTENSION
      · cases canon with
        | none => simp [get_canonical_path_if_image, hc]
        | some c =>
          constructor
          · intro hsome
            have hcp : c = p := by
              simpa [get_canonical_path_if_image, hc] using hsome
            subst hcp
            exact ⟨e, rfl, by simpa using hc⟩
          · rintro ⟨e1, heq, _⟩
            cases heq
            simp [get_canonical_path_if_image, hc]
      · cases canon <;> simp [get_canonical_path_if_image, hc]
  | special => simp [get_canonical_path_if_image]
  | entryErr e => simp [get_canonical_path_if_image]
  | dirErr e => simp [get_canonical_path_if_image]
  | dir entries => simp [get_canonical_path_if_image]

/-- C3 witness: an upper-case `.JPG` regular file passes the filter. -/
theorem C3_path_filter_witness :
    get_canonical_path_if_image
        (FSNode.file (some ("JPG")) (some ("/pics/a.jpg"))) =
      some ("/pics/a.jpg") :=
  (C3_path_filter (FSNode.file (some ("JPG")) (some ("/pics/a.jpg")))
      "/pics/a.jpg").mpr ⟨"JPG", rfl, by decide⟩

/-- C4: local-recovery walk policy. (1) For any directory entry — readable or
not — the sibling walk continues with whatever the subtree walk accumulated,
regardless of whether the subtree walk failed: a listing failure below the
root never aborts the walk, and eligible files in sibling subtrees are still
collected. (2) A failure enumerating the root itself propagates out of
`find_absolute_image_path` and (3) surfaces as the fatal construction error
of `MediaState::new`. -/
theorem C4_local_recovery :
    (∀ (d : FSNode) (rest : List FSNode) (acc : List String),
        d.isDir = true →
        walkEntries (d :: rest) acc =
          walkEntries rest (find_images_recursively d acc).1) ∧
    (∀ e : String,
        find_absolute_image_path (FSNode.dirErr e) = Except.error e) ∧
    (∀ (cfg : MediaConfig) (e : String),
        MediaState.new cfg (FSNode.dirErr e) =
          Except.error (walkFailedMsg cfg.media)) := by
  refine ⟨?_, ?_, ?_⟩
  · intro d rest acc hd
    cases d with
    | dir entries => rfl
    | dirErr e => rfl
    | file ext canon => simp [FSNode.isDir] at hd
    | special => simp [FSNode.isDir] at hd
    | entryErr e => simp [FSNode.isDir] at hd
  · intro e
    rfl
  · intro cfg e
    rfl

/-- C4 witness: an unreadable subdirectory is skipped and the sibling file is
still reached by the continuing walk. -/
theorem C4_local_recovery_witness :
    walkEntries
        (FSNode.dirErr ("permission denied") ::
          [FSNode.file (some ("jpg")) (some ("/media/sib.jpg"))]) [] =
      walkEntries [FSNode.file (some ("jpg")) (some ("/media/sib.jpg"))]
        (find_images_recursively (FSNode.dirErr ("permission denied")) []).1 :=
  C4_local_recovery.1 (FSNode.dirErr ("permission denied"))
    [FSNode.file (some ("jpg")) (some ("/media/sib.jpg"))] [] rfl

/-- C8: every successfully constructed index is non-empty — `image_count`
is at least 1 whenever `MediaState::new` returns `Ok`. (The state is a pure
value shared read-only; no operation of the program mutates it, so the bound
holds for its whole lifetime.) -/
theorem C8_index_nonempty (cfg : MediaConfig) (root : FSNode) (s : MediaState)
    (h : MediaState.new cfg root = Except.ok s) : 1 ≤ s.image_count := by
  rw [mediaState_new_eq] at h
  split at h
  · cases h
  · split at h
    · cases h
    · cases h
    · cases h
      simp [MediaState.image_count]

/-- C8 witness: the index built from `rootW` exists and has one entry. -/
theorem C8_index_nonempty_witness : 1 ≤ sW1.image_count :=
  C8_index_nonempty cfgW rootW sW1 rfl

/-- C9: on an index satisfying the non-empty invariant, the selection index
`seed % count` lies in `[0, count)`, `get_random_image` returns exactly the
path stored at that position, and the operation cannot fail or panic (its
result is always `some`). -/
theorem C9_random_access_safe (s : MediaState) (seed : Nat)
    (h : 1 ≤ s.image_count) :
    seed % s.image_count < s.image_count ∧
    s.get_random_image seed = s.paths.get? (seed % s.image_count) ∧
    (s.get_random_image seed).isSome = true := by
  have hpos : 0 < s.image_count := h
  have hlt : seed % s.image_count < s.image_count := Nat.mod_lt seed hpos
  have heq : s.get_random_image seed = s.paths.get? (seed % s.image_count) := by
    unfold MediaState.get_random_image
    simp only
    rw [if_neg (by omega)]
  refine ⟨hlt, heq, ?_⟩
  rw [heq, List.get?_eq_get hlt]
  rfl

/-- C9 witness: on a two-entry index, seed 7 selects position 1 safely. -/
theorem C9_random_access_safe_witness :
    7 % sW2.image_count < sW2.image_count ∧
    sW2.get_random_image 7 = sW2.paths.get? (7 % sW2.image_count) ∧
    (sW2.get_random_image 7).isSome = true :=
  C9_random_access_safe sW2 7 (by decide)

/-- C10: index construction performs no deduplication — on `dupTree`, where
two distinct directory entries canonicalize to `/nas/x.jpg`, construction
succeeds with that canonical path stored at two positions, `image_count`
counts each occurrence, and two of the three selection residues map to the
duplicated file (selection is weighted toward it). -/
theorem C10_no_dedup :
    ∃ s : MediaState,
      MediaState.new cfg10 dupTree = Except.ok s ∧
      s.paths = ["/nas/x.jpg", "/nas/x.jpg", "/nas/y.png"] ∧
      s.paths.count ("/nas/x.jpg") = 2 ∧
      s.image_count = 3 ∧
      s.get_random_image 0 = some ("/nas/x.jpg") ∧
      s.get_random_image 1 = some ("/nas/x.jpg") ∧
      s.get_random_image 2 = some ("/nas/y.png") := by
  refine ⟨{ media_config := cfg10,
            paths := ["/nas/x.jpg", "/nas/x.jpg", "/nas/y.png"] },
          ?_, rfl, by decide, rfl, rfl, rfl, rfl⟩
  rfl

theorem message_eq_tag_cause (e : ImageError) :
    ImageError.message e = kindTag e ++ ImageError.cause e := by
  cases e <;> rfl

theorem get_random_image_isSome (s : MediaState) (seed : Nat)
    (h : 1 ≤ s.image_count) :
    ∃ p, s.get_random_image seed = some p := by
  have hlt : seed % s.image_count < s.paths.length := Nat.mod_lt seed h
  refine ⟨s.paths.get ⟨seed % s.image_count, hlt⟩, ?_⟩
  unfold MediaState.get_random_image
  simp only
  rw [if_neg (by omega), List.get?_eq_get hlt]

/-- C5: for every request against an index satisfying the non-empty
invariant, the handler produces a response of exactly one of two shapes — on
pipeline success status 200 with `Content-Type: image/jpeg` and the encoded
JPEG bytes as body, and on any pipeline error status 500 with a plain-text
body opening with a kind-identifying message (IO, Load, Encode). -/
theorem C5_response_shapes (state : MediaState) (seed : Nat)
    (files : String → ImageFile) (h : 1 ≤ state.image_count) :
    ∃ img_path resp,
      state.get_random_image seed = some img_path ∧
      get_random_art_handler state seed files = some resp ∧
      ((∃ bs,
          render (files img_path) state.media_config.image.resolution =
            Except.ok bs ∧
          resp = { status := 200, contentType := some ("image/jpeg"),
                   body := HttpBody.bytes bs }) ∨
       (∃ err,
          render (files img_path) state.media_config.image.resolution =
            Except.error err ∧
          resp.status = 500 ∧
          resp.body = HttpBody.text (kindTag err ++ ImageError.cause err))) := by
  obtain ⟨p, hp⟩ := get_random_image_isSome state seed h
  cases hr : render (files p) state.media_config.image.resolution with
  | ok bs =>
    refine ⟨p, { status := 200, contentType := some ("image/jpeg"),
                 body := HttpBody.bytes bs }, hp, ?_, Or.inl ⟨bs, hr, rfl⟩⟩
    simp [get_random_art_handler, hp, hr]
  | error err =>
    refine ⟨p, err.into_response, hp, ?_, Or.inr ⟨err, hr, rfl, ?_⟩⟩
    · simp [get_random_art_handler, hp, hr]
    · rw [← message_eq_tag_cause]
      rfl

/-- C5 witness: on the one-image index with an all-success file, the handler
answers 200 / `image/jpeg` / the JPEG bytes. -/
theorem C5_response_shapes_witness :
    ∃ img_path resp,
      sW1.get_random_image 0 = some img_path ∧
      get_random_art_handler sW1 0 (fun _ => goodFile) = some resp ∧
      ((∃ bs,
          render ((fun _ => goodFile) img_path)
              sW1.media_config.image.resolution = Except.ok bs ∧
          resp = { status := 200, contentType := some ("image/jpeg"),
                   body := HttpBody.bytes bs }) ∨
       (∃ err,
          render ((fun _ => goodFile) img_path)
              sW1.media_config.image.resolution = Except.error err ∧
          resp.status = 500 ∧
          resp.body = HttpBody.text (kindTag err ++ ImageError.cause err))) :=
  C5_response_shapes sW1 0 (fun _ => goodFile) (by decide)

/-- C6: each failing pipeline stage maps to its own error kind — open or
format-probe failure to `IO`, decode failure to `Load`, thumbnail-encode
failure to `Encode` — and the three kinds are pairwise distinct, so the
caller can distinguish them. -/
theorem C6_stage_to_kind :
    (∀ (f : ImageFile) (R : Nat) (e : String),
        f.openResult = Except.error e →
        render f R = Except.error (ImageError.ioErr e)) ∧
    (∀ (f : ImageFile) (R : Nat) (e : String),
        f.openResult = Except.ok () → f.guessResult = Except.error e →
        render f R = Except.error (ImageError.ioErr e)) ∧
    (∀ (f : ImageFile) (R : Nat) (e : String),
        f.openResult = Except.ok () → f.guessResult = Except.ok () →
        f.decodeResult = Except.error e →
        render f R = Except.error (ImageError.load e)) ∧
    (∀ (f : ImageFile) (R : Nat) (e : String) (wh : Nat × Nat),
        f.openResult = Except.ok () → f.guessResult = Except.ok () →
        f.decodeResult = Except.ok wh →
        f.encodeResult (thumbnail_dims wh.1 wh.2 R) = Except.error e →
        render f R = Except.error (ImageError.encode e)) ∧
    (∀ a b : String,
        ImageError.ioErr a ≠ ImageError.load b ∧
        ImageError.ioErr a ≠ ImageError.encode b ∧
        ImageError.load a ≠ ImageError.encode b) := by
  refine ⟨?_, ?_, ?_, ?_, ?_⟩
  · intro f R e h1
    simp [render, h1]
  · intro f R e h1 h2
    simp [render, h1, h2]
  · intro f R e h1 h2 h3
    simp [render, h1, h2, h3]
  · intro f R e wh h1 h2 h3 h4
    simp [render, h1, h2, h3, h4]
  · intro a b
    refine ⟨?_, ?_, ?_⟩ <;> intro hcontra <;> cases hcontra

/-- C6 witness: a missing file fails with the IO kind. -/
theorem C6_stage_to_kind_witness :
    render fileMissing 720 =
      Except.error (ImageError.ioErr ("No such file or directory")) :=
  C6_stage_to_kind.1 fileMissing 720 ("No such file or directory") rfl

/-- C7 counterexample: two IO failures with different underlying causes
produce different response bodies — the claim that same-kind failures yield
the same body (cause never leaked) is false: `into_response` formats the
cause into the body. -/
theorem C7_counterexample :
    (ImageError.ioErr ("cause one")).into_response.body ≠
      (ImageError.ioErr ("cause two")).into_response.body := by
  decide

/-- C7 amended: for every pipeline error the response has status 500 and its
body is exactly the logged message — the kind-identifying text followed by
the underlying cause verbatim. The cause is thus leaked in the body, not only
logged, and same-kind failures with different causes differ in body. -/
theorem C7_amended_body_leaks_cause (e : ImageError) :
    e.into_response.status = 500 ∧
    e.into_response.body = HttpBody.text (ImageError.logged e) ∧
    ImageError.logged e = kindTag e ++ ImageError.cause e :=
  ⟨rfl, rfl, message_eq_tag_cause e⟩

/-- C1: the thumbnail dimensions fit within the R×R bounding box, never
exceed the original dimensions (no upscaling), equal the original when it is
already within the box, and otherwise have longest side exactly R. -/
theorem C1_thumbnail_bounds (w h R : Nat)
    (hw : 1 ≤ w) (hh : 1 ≤ h) (hR : 1 ≤ R) :
    (thumbnail_dims w h R).1 ≤ R ∧
    (thumbnail_dims w h R).2 ≤ R ∧
    (thumbnail_dims w h R).1 ≤ w ∧
    (thumbnail_dims w h R).2 ≤ h ∧
    (w ≤ R ∧ h ≤ R → thumbnail_dims w h R = (w, h)) ∧
    (¬(w ≤ R ∧ h ≤ R) →
      max (thumbnail_dims w h R).1 (thumbnail_dims w h R).2 = R) := by
  by_cases hsmall : w ≤ R ∧ h ≤ R
  · have hd : thumbnail_dims w h R = (w, h) := by
      simp [thumbnail_dims, hsmall]
    rw [hd]
    exact ⟨hsmall.1, hsmall.2, le_refl w, le_refl h, fun _ => rfl,
      fun hcon => absurd hsmall hcon⟩
  · by_cases hhw : h ≤ w
    · have hRw : R < w := by
        by_contra hcon
        push_neg at hcon
        exact hsmall ⟨hcon, le_trans hhw hcon⟩
      have hq1 : (h * R + w / 2) / w ≤ R := by
        have hmul : h * R ≤ w * R := Nat.mul_le_mul hhw (le_refl R)
        have hdiv : (w * R + w / 2) / w = R := by
          rw [Nat.mul_add_div (by omega)]
          have hz : w / 2 / w = 0 := Nat.div_eq_of_lt (by omega)
          omega
        calc (h * R + w / 2) / w ≤ (w * R + w / 2) / w :=
              Nat.div_le_div_right (by omega)
          _ = R := hdiv
      have hq2 : (h * R + w / 2) / w ≤ h := by
        have hmul : h * R ≤ h * w := Nat.mul_le_mul (le_refl h) (le_of_lt hRw)
        have hlt2 : h * R + w / 2 < (h + 1) * w := by
          have hexp : (h + 1) * w = h * w + w := by ring
          omega
        have hfin := (Nat.div_lt_iff_lt_mul (show 0 < w by omega)).mpr hlt2
        omega
      have hd : thumbnail_dims w h R = (R, max ((h * R + w / 2) / w) 1) := by
        simp [thumbnail_dims, hsmall, hhw]
      rw [hd]
      exact ⟨le_refl R, Nat.max_le.mpr ⟨hq1, hR⟩, le_of_lt hRw,
        Nat.max_le.mpr ⟨hq2, hh⟩, fun hcon => absurd hcon hsmall,
        fun _ => Nat.max_eq_left (Nat.max_le.mpr ⟨hq1, hR⟩)⟩
    · have hwh : w < h := Nat.lt_of_not_le hhw
      have hRh : R < h := by
        by_contra hcon
        push_neg at hcon
        exact hsmall ⟨le_trans (le_of_lt hwh) hcon, hcon⟩
      have hq1 : (w * R + h / 2) / h ≤ R := by
        have hmul : w * R ≤ h * R := Nat.mul_le_mul (le_of_lt hwh) (le_refl R)
        have hdiv : (h * R + h / 2) / h = R := by
          rw [Nat.mul_add_div (by omega)]
          have hz : h / 2 / h = 0 := Nat.div_eq_of_lt (by omega)
          omega
        calc (w * R + h / 2) / h ≤ (h * R + h / 2) / h :=
              Nat.div_le_div_right (by omega)
          _ = R := hdiv
      have hq2 : (w * R + h / 2) / h ≤ w := by
        have hmul : w * R ≤ w * h := Nat.mul_le_mul (le_refl w) (le_of_lt hRh)
        have hlt2 : w * R + h / 2 < (w + 1) * h := by
          have hexp : (w + 1) * h = w * h + h := by ring
          omega
        have hfin := (Nat.div_lt_iff_lt_mul (show 0 < h by omega)).mpr hlt2
        omega
      have hd : thumbnail_dims w h R = (max ((w * R + h / 2) / h) 1, R) := by
        simp [thumbnail_dims, hsmall, hhw]
      rw [hd]
      exact ⟨Nat.max_le.mpr ⟨hq1, hR⟩, le_refl R,
        Nat.max_le.mpr ⟨hq2, hw⟩, le_of_lt hRh,
        fun hcon => absurd hcon hsmall,
        fun _ => Nat.max_eq_right (Nat.max_le.mpr ⟨hq1, hR⟩)⟩

/-- C1 witness: a 1024×768 original at target resolution 720. -/
theorem C1_thumbnail_bounds_witness :
    (thumbnail_dims 1024 768 720).1 ≤ 720 ∧
    (thumbnail_dims 1024 768 720).2 ≤ 720 ∧
    (thumbnail_dims 1024 768 720).1 ≤ 1024 ∧
    (thumbnail_dims 1024 768 720).2 ≤ 768 ∧
    (1024 ≤ 720 ∧ 768 ≤ 720 → thumbnail_dims 1024 768 720 = (1024, 768)) ∧
    (¬(1024 ≤ 720 ∧ 768 ≤ 720) →
      max (thumbnail_dims 1024 768 720).1 (thumbnail_dims 1024 768 720).2 =
        720) :=
  C1_thumbnail_bounds 1024 768 720 (by decide) (by decide) (by decide)
